import Mathlib

/-!
Shallow embedding of the LinkedIn post reviewer tools
(linkedin_post_agent/subagents/post_reviewer/tools.py) and of the
reviewer/loop contracts described in the specification.

A Python string is modelled as a list of Unicode code points; `len` is list
length, the substring operator `in` is `containsSub`, and `str.lower` is a
per-character lowercase map (the tokens compared in this code are ASCII).
The tool context is modelled by its two observed parts: the session state
dictionary (an association list updated by key assignment) and the
`actions.escalate` flag. Each tool returns its result dictionary together
with the updated context.
-/

namespace LinkedInAgent

/-- A text is a list of Unicode characters (Python `str`). -/
abbrev Text := List Char

/-- Whether `p` is a leading segment of `l` (used to embed the Python
substring operator). -/
def isPrefixList : Text → Text → Bool
  | [], _ => true
  | _ :: _, [] => false
  | a :: as, b :: bs => a = b && isPrefixList as bs

/-- Python substring test `needle in haystack`. -/
def containsSub (needle : Text) : Text → Bool
  | [] => needle.isEmpty
  | c :: rest => isPrefixList needle (c :: rest) || containsSub needle rest

/-- Python `str.lower`, character by character (faithful for the ASCII
tokens this code compares). -/
def lowerText (t : Text) : Text := t.map Char.toLower

/-- Python dict assignment `state[k] = v`: replace the value at an existing
key, or append the binding. -/
def stateSet : List (String × String) → String → String → List (String × String)
  | [], k, v => [(k, v)]
  | (k₁, v₁) :: rest, k, v =>
      if k₁ = k then (k, v) :: rest else (k₁, v₁) :: stateSet rest k v

/-- Python dict lookup `state.get(k)`. -/
def stateGet : List (String × String) → String → Option String
  | [], _ => none
  | (k₁, v₁) :: rest, k => if k₁ = k then some v₁ else stateGet rest k

/-- The parts of the ADK ToolContext the tools touch: the session state
dictionary and the `actions.escalate` flag. -/
structure ToolContext where
  state : List (String × String)
  escalate : Bool
  deriving DecidableEq

/-- The result dictionaries returned by the three validator tools. Keys that
a given tool does not emit are `none`. -/
structure CheckResult where
  result : String
  message : String
  char_count : Option Nat := none
  chars_needed : Option Nat := none
  chars_to_remove : Option Nat := none
  missing_elements : Option (List String) := none
  issues : Option (List String) := none
  deriving DecidableEq

def MIN_LENGTH : Nat := 1000

def MAX_LENGTH : Nat := 1500

/-- Embedding of `count_characters(text, tool_context)`. -/
def count_characters (text : Text) (tool_context : ToolContext) :
    CheckResult × ToolContext :=
  let char_count := text.length
  if char_count < MIN_LENGTH then
    let chars_needed := MIN_LENGTH - char_count
    ({ result := "fail"
       message := "Post is too short. Add " ++ toString chars_needed ++
         " more characters to reach minimum length of " ++ toString MIN_LENGTH ++ "."
       char_count := some char_count
       chars_needed := some chars_needed },
     { tool_context with state := stateSet tool_context.state "review_status" "fail" })
  else if char_count > MAX_LENGTH then
    let chars_to_remove := char_count - MAX_LENGTH
    ({ result := "fail"
       message := "Post is too long. Remove " ++ toString chars_to_remove ++
         " characters to meet maximum length of " ++ toString MAX_LENGTH ++ "."
       char_count := some char_count
       chars_to_remove := some chars_to_remove },
     { tool_context with state := stateSet tool_context.state "review_status" "fail" })
  else
    ({ result := "pass"
       message := "Post length is good (" ++ toString char_count ++ " characters)."
       char_count := some char_count },
     { tool_context with state := stateSet tool_context.state "review_status" "pass" })

/-- Embedding of `exit_loop(tool_context)`: sets `actions.escalate` and
returns the empty dictionary. -/
def exit_loop (tool_context : ToolContext) :
    List (String × String) × ToolContext :=
  ([], { tool_context with escalate := true })

/-- The fixed mention token required by the content check. -/
def mention_token : Text := "@aiwithbrandon".toList

/-- The fixed capability vocabulary of the content check. -/
def adk_capabilities : List Text :=
  ["basic agent implementation".toList, "tool integration".toList,
   "LiteLLM".toList, "sessions and memory".toList, "persistent storage".toList,
   "multi-agent orchestration".toList, "stateful multi-agent systems".toList,
   "callback systems".toList, "sequential agents".toList,
   "parallel agents".toList, "loop agents".toList]

/-- The fixed call-to-action phrase set of the content check. -/
def call_to_action_keywords : List Text :=
  ["connect with me".toList, "follow me".toList, "learn more".toList,
   "get in touch".toList]

/-- The fixed practical-application phrase set of the content check. -/
def practical_application_keywords : List Text :=
  ["real-world".toList, "practical".toList, "applications".toList,
   "use cases".toList]

/-- The fixed enthusiasm phrase set of the content check. -/
def enthusiasm_keywords : List Text :=
  ["excited".toList, "thrilled".toList, "love".toList, "amazing".toList,
   "fantastic".toList, "great".toList]

/-- The mention condition: the exact (case-sensitive) token occurs in the text. -/
def mention_present (text : Text) : Bool := containsSub mention_token text

/-- Number of capability phrases matched case-insensitively in the text. -/
def capability_count (text : Text) : Nat :=
  (adk_capabilities.filter (fun cap => containsSub (lowerText cap) (lowerText text))).length

/-- Some call-to-action phrase occurs in the lowercased text. -/
def has_call_to_action (text : Text) : Bool :=
  call_to_action_keywords.any (fun k => containsSub k (lowerText text))

/-- Some practical-application phrase occurs in the lowercased text. -/
def has_practical_application (text : Text) : Bool :=
  practical_application_keywords.any (fun k => containsSub k (lowerText text))

/-- Some enthusiasm phrase occurs in the lowercased text. -/
def has_enthusiasm (text : Text) : Bool :=
  enthusiasm_keywords.any (fun k => containsSub k (lowerText text))

/-- Embedding of `check_content_elements(text, tool_context)`; the missing
elements are appended in source order. -/
def check_content_elements (text : Text) (tool_context : ToolContext) :
    CheckResult × ToolContext :=
  let m1 : List String :=
    if !(mention_present text) then ["Mentions @aiwithbrandon"] else []
  let m2 := m1 ++
    (if capability_count text < 4 then ["Lists at least 4 ADK capabilities"] else [])
  let m3 := m2 ++
    (if !(has_call_to_action text) then ["Has a clear call-to-action"] else [])
  let m4 := m3 ++
    (if !(has_practical_application text) then ["Includes practical applications"] else [])
  let missing_elements := m4 ++
    (if !(has_enthusiasm text) then ["Shows genuine enthusiasm"] else [])
  if !missing_elements.isEmpty then
    ({ result := "fail"
       message := "The post is missing some required content elements."
       missing_elements := some missing_elements },
     { tool_context with state := stateSet tool_context.state "review_status" "fail" })
  else
    ({ result := "pass"
       message := "All required content elements are present."
       missing_elements := some [] },
     tool_context)

/-- The fixed emoji character set of the style check, exactly the characters
of the literal in the source (variation selectors included). -/
def emoji_chars : Text := "😀😃😄😁😆😅😂🤣🥲😊😇🙂🙃😉😌😍🥰😘😗😙😚😋😛😝😜🤪🤨🧐🤓😎🥸🤩🥳😏😒😞😔😟😕🙁☹️😣😖😫😩🥺😢😭😤😠😡🤬🤯😳🥵🥶😱😨😰😥😓🤗🤔🫣🤫🫠🤥😶🫥😐😑🫨😬🫠🙄😯😦😧😮😲🥱😴🤤😪😵💫🤐🥴🤢🤮🤧😷🤒🤕🤑🤠😈👿👹👺🤡💩👻💀☠️👽👾🤖🎃😺😸😹😻😼😽🙀😿😾".toList

/-- The fixed informal-language token list of the style check. -/
def informal_keywords : List Text :=
  ["lol".toList, "lmao".toList, "btw".toList, "ikr".toList, "omg".toList,
   "wtf".toList]

/-- Some character of the text belongs to the emoji set. -/
def has_emoji (text : Text) : Bool := text.any (fun c => emoji_chars.contains c)

/-- The hash character occurs in the text. -/
def has_hashtag (text : Text) : Bool := containsSub "#".toList text

/-- Some informal token occurs in the lowercased text. -/
def has_informal_language (text : Text) : Bool :=
  informal_keywords.any (fun k => containsSub k (lowerText text))

/-- Embedding of `check_style_elements(text, tool_context)`; the issues are
appended in source order. -/
def check_style_elements (text : Text) (tool_context : ToolContext) :
    CheckResult × ToolContext :=
  let s1 : List String := if has_emoji text then ["NO emojis"] else []
  let s2 := s1 ++ (if has_hashtag text then ["NO hashtags"] else [])
  let style_issues := s2 ++
    (if has_informal_language text then ["Professional tone (avoid informal language)"] else [])
  if !style_issues.isEmpty then
    ({ result := "fail"
       message := "The post has some style issues."
       issues := some style_issues },
     { tool_context with state := stateSet tool_context.state "review_status" "fail" })
  else
    ({ result := "pass"
       message := "All style requirements are met."
       issues := some [] },
     tool_context)

/-- Names of the three deterministic validators, in the order the Reviewer
Agent is instructed to run them. -/
inductive CheckName
  | length
  | content
  | style
  deriving DecidableEq

/-- Modelled from the spec: the Reviewer Agent runs the Validator Suite in
strict order (length, then content, then style), stops at the first failure
and surfaces only that result. The sequencing lives in the agent instruction
prompt of `post_reviewer/agent.py` and is not otherwise executable source;
this definition follows the specification text. The first component records
which validators were run, in order; the second is the surfaced result. -/
def reviewer_pass (text : Text) (tool_context : ToolContext) :
    List CheckName × CheckResult × ToolContext :=
  let lr := count_characters text tool_context
  if lr.1.result = "fail" then ([CheckName.length], lr.1, lr.2)
  else
    let cr := check_content_elements text lr.2
    if cr.1.result = "fail" then ([CheckName.length, CheckName.content], cr.1, cr.2)
    else
      let sr := check_style_elements text cr.2
      ([CheckName.length, CheckName.content, CheckName.style], sr.1, sr.2)

/-- Modelled from the spec: the Refinement Loop runs generate-review
iterations, bounded by a remaining-iteration budget; `signal i` says whether
the Reviewer raised the termination signal (the escalate flag) at iteration
`i`. The loop accepts at the first signalled iteration and gives up when the
budget runs out. The loop driver itself is not part of the source files. -/
def run_loop_from (signal : Nat → Bool) : Nat → Nat → Option Nat
  | _, 0 => none
  | i, fuel + 1 => if signal i then some i else run_loop_from signal (i + 1) fuel

/-- Modelled from the spec: the whole Refinement Loop, starting at iteration
0 with iteration cap `cap`; `some i` means accepted at iteration `i`, `none`
means the cap was exhausted without acceptance. -/
def run_loop (signal : Nat → Bool) (cap : Nat) : Option Nat :=
  run_loop_from signal 0 cap

/-! Shared characterization lemmas. -/

theorem count_characters_short (text : Text) (ctx : ToolContext)
    (h : text.length < 1000) :
    count_characters text ctx =
      ({ result := "fail"
         message := "Post is too short. Add " ++ toString (1000 - text.length) ++
           " more characters to reach minimum length of " ++ toString 1000 ++ "."
         char_count := some text.length
         chars_needed := some (1000 - text.length) },
       { ctx with state := stateSet ctx.state "review_status" "fail" }) := by
  simp only [count_characters, MIN_LENGTH, MAX_LENGTH]
  rw [if_pos h]

theorem count_characters_long (text : Text) (ctx : ToolContext)
    (h : 1500 < text.length) :
    count_characters text ctx =
      ({ result := "fail"
         message := "Post is too long. Remove " ++ toString (text.length - 1500) ++
           " characters to meet maximum length of " ++ toString 1500 ++ "."
         char_count := some text.length
         chars_to_remove := some (text.length - 1500) },
       { ctx with state := stateSet ctx.state "review_status" "fail" }) := by
  simp only [count_characters, MIN_LENGTH, MAX_LENGTH]
  rw [if_neg (by omega), if_pos h]

theorem count_characters_good (text : Text) (ctx : ToolContext)
    (h1 : 1000 ≤ text.length) (h2 : text.length ≤ 1500) :
    count_characters text ctx =
      ({ result := "pass"
         message := "Post length is good (" ++ toString text.length ++ " characters)."
         char_count := some text.length },
       { ctx with state := stateSet ctx.state "review_status" "pass" }) := by
  simp only [count_characters, MIN_LENGTH, MAX_LENGTH]
  rw [if_neg (by omega), if_neg (by omega)]

theorem count_characters_core (text : Text) (ctx : ToolContext) :
    ((count_characters text ctx).1.result = "pass" ↔
      (1000 ≤ text.length ∧ text.length ≤ 1500)) ∧
    ((count_characters text ctx).1.result = "fail" ↔
      (text.length < 1000 ∨ 1500 < text.length)) ∧
    (count_characters text ctx).1.chars_needed =
      (if text.length < 1000 then some (1000 - text.length) else none) ∧
    (count_characters text ctx).1.chars_to_remove =
      (if 1500 < text.length then some (text.length - 1500) else none) ∧
    (count_characters text ctx).1.char_count = some text.length ∧
    (count_characters text ctx).2 =
      { ctx with
        state := stateSet ctx.state "review_status" (count_characters text ctx).1.result } := by
  rcases Nat.lt_or_ge text.length 1000 with h1 | h1
  · rw [count_characters_short text ctx h1]
    simp [h1]
    rw [if_neg (by omega)]
  · rcases Nat.lt_or_ge 1500 text.length with h2 | h2
    · rw [count_characters_long text ctx h2]
      simp [h2]
      rw [if_neg (by omega)]
    · rw [count_characters_good text ctx h1 h2]
      simp [Nat.not_lt.mpr h1, Nat.not_lt.mpr h2]
      omega

/-- The missing-elements list of the content check, one named requirement per
failing condition, in source order. -/
def content_missing (text : Text) : List String :=
  (if mention_present text then [] else ["Mentions @aiwithbrandon"]) ++
  (if capability_count text < 4 then ["Lists at least 4 ADK capabilities"] else []) ++
  (if has_call_to_action text then [] else ["Has a clear call-to-action"]) ++
  (if has_practical_application text then [] else ["Includes practical applications"]) ++
  (if has_enthusiasm text then [] else ["Shows genuine enthusiasm"])

theorem check_content_elements_core (text : Text) (ctx : ToolContext) :
    (check_content_elements text ctx).1.missing_elements = some (content_missing text) ∧
    ((check_content_elements text ctx).1.result = "fail" ↔
      (mention_present text = false ∨ capability_count text < 4 ∨
       has_call_to_action text = false ∨ has_practical_application text = false ∨
       has_enthusiasm text = false)) ∧
    ((check_content_elements text ctx).1.result = "pass" ↔
      (mention_present text = true ∧ 4 ≤ capability_count text ∧
       has_call_to_action text = true ∧ has_practical_application text = true ∧
       has_enthusiasm text = true)) ∧
    ((check_content_elements text ctx).2 =
      if (check_content_elements text ctx).1.result = "fail"
        then { ctx with state := stateSet ctx.state "review_status" "fail" }
        else ctx) := by
  by_cases hc : capability_count text < 4 <;>
  cases hm : mention_present text <;>
  cases ha : has_call_to_action text <;>
  cases hp : has_practical_application text <;>
  cases he : has_enthusiasm text <;>
  simp [check_content_elements, content_missing, hm, ha, hp, he, hc, Nat.le_of_not_lt]

/-- The issues list of the style check, one named rule per violation, in
source order. -/
def style_issues_list (text : Text) : List String :=
  (if has_emoji text then ["NO emojis"] else []) ++
  (if has_hashtag text then ["NO hashtags"] else []) ++
  (if has_informal_language text then ["Professional tone (avoid informal language)"] else [])

theorem check_style_elements_core (text : Text) (ctx : ToolContext) :
    (check_style_elements text ctx).1.issues = some (style_issues_list text) ∧
    ((check_style_elements text ctx).1.result = "fail" ↔
      (has_emoji text = true ∨ has_hashtag text = true ∨
       has_informal_language text = true)) ∧
    ((check_style_elements text ctx).1.result = "pass" ↔
      (has_emoji text = false ∧ has_hashtag text = false ∧
       has_informal_language text = false)) ∧
    ((check_style_elements text ctx).2 =
      if (check_style_elements text ctx).1.result = "fail"
        then { ctx with state := stateSet ctx.state "review_status" "fail" }
        else ctx) := by
  cases he : has_emoji text <;>
  cases hh : has_hashtag text <;>
  cases hi : has_informal_language text <;>
  simp [check_style_elements, style_issues_list, he, hh, hi]

theorem count_characters_fst_ctx (text : Text) (ctx ctx' : ToolContext) :
    (count_characters text ctx).1 = (count_characters text ctx').1 := by
  rcases Nat.lt_or_ge text.length 1000 with h1 | h1
  · rw [count_characters_short text ctx h1, count_characters_short text ctx' h1]
  · rcases Nat.lt_or_ge 1500 text.length with h2 | h2
    · rw [count_characters_long text ctx h2, count_characters_long text ctx' h2]
    · rw [count_characters_good text ctx h1 h2, count_characters_good text ctx' h1 h2]

theorem check_content_elements_fst_ctx (text : Text) (ctx ctx' : ToolContext) :
    (check_content_elements text ctx).1 = (check_content_elements text ctx').1 := by
  simp only [check_content_elements]
  split_ifs <;> rfl

theorem check_style_elements_fst_ctx (text : Text) (ctx ctx' : ToolContext) :
    (check_style_elements text ctx).1 = (check_style_elements text ctx').1 := by
  simp only [check_style_elements]
  split_ifs <;> rfl

theorem stateGet_stateSet_same (s : List (String × String)) (k v : String) :
    stateGet (stateSet s k v) k = some v := by
  induction s with
  | nil => simp [stateSet, stateGet]
  | cons hd tl ih =>
      obtain ⟨k₁, v₁⟩ := hd
      by_cases h : k₁ = k <;> simp [stateSet, stateGet, h, ih]

theorem stateGet_stateSet_other (s : List (String × String)) (k v k' : String)
    (h : k' ≠ k) : stateGet (stateSet s k v) k' = stateGet s k' := by
  induction s with
  | nil => simp [stateSet, stateGet, Ne.symm h]
  | cons hd tl ih =>
      obtain ⟨k₁, v₁⟩ := hd
      by_cases h₁ : k₁ = k
      · subst h₁
        simp [stateSet, stateGet, Ne.symm h]
      · simp [stateSet, stateGet, h₁, ih]

theorem run_loop_from_isSome (signal : Nat → Bool) (i fuel : Nat) :
    (run_loop_from signal i fuel).isSome = true ↔
      (∃ j, j < fuel ∧ signal (i + j) = true) := by
  induction fuel generalizing i with
  | zero => simp [run_loop_from]
  | succ n ih =>
      by_cases hs : signal i = true
      · simp only [run_loop_from, hs, if_true, Option.isSome_some, true_iff]
        exact ⟨0, by omega, by simpa using hs⟩
      · simp only [run_loop_from, hs, if_false, Bool.false_eq_true]
        rw [ih (i + 1)]
        constructor
        · rintro ⟨j, hj, hsig⟩
          exact ⟨j + 1, by omega, by rwa [show i + (j + 1) = i + 1 + j by omega]⟩
        · rintro ⟨j, hj, hsig⟩
          cases j with
          | zero => exact absurd (by simpa using hsig) hs
          | succ j =>
              exact ⟨j, by omega, by rwa [show i + 1 + j = i + (j + 1) by omega]⟩

theorem append_ne_empty (s t : String) (h : 0 < s.length) : s ++ t ≠ "" := by
  intro h0
  have h1 := congrArg String.length h0
  rw [String.length_append] at h1
  simp at h1
  omega

/-! Claim theorems. -/

/-- C1: for every input string of length L, the length check returns result
pass iff 1000 ≤ L ≤ 1500 (boundaries inclusive); for L < 1000 it returns
result fail with chars_needed = 1000 − L, for L > 1500 it returns result
fail with chars_to_remove = L − 1500, and in every case char_count = L. -/
theorem claim_length_check (text : Text) (ctx : ToolContext) :
    ((count_characters text ctx).1.result = "pass" ↔
      (1000 ≤ text.length ∧ text.length ≤ 1500)) ∧
    ((count_characters text ctx).1.result = "fail" ↔
      (text.length < 1000 ∨ 1500 < text.length)) ∧
    (count_characters text ctx).1.chars_needed =
      (if text.length < 1000 then some (1000 - text.length) else none) ∧
    (count_characters text ctx).1.chars_to_remove =
      (if 1500 < text.length then some (text.length - 1500) else none) ∧
    (count_characters text ctx).1.char_count = some text.length := by
  have h := count_characters_core text ctx
  exact ⟨h.1, h.2.1, h.2.2.1, h.2.2.2.1, h.2.2.2.2.1⟩

/-- C2: the content check returns result fail iff the mention token is
absent, fewer than 4 capability phrases match case-insensitively, or one of
the call-to-action, practical-application or enthusiasm phrase sets has no
match; the missing_elements list is exactly the failing named requirements
(one entry per failing condition, as spelled out by content_missing), and
result pass holds iff that list is empty. -/
theorem claim_content_check (text : Text) (ctx : ToolContext) :
    ((check_content_elements text ctx).1.result = "fail" ↔
      (mention_present text = false ∨ capability_count text < 4 ∨
       has_call_to_action text = false ∨ has_practical_application text = false ∨
       has_enthusiasm text = false)) ∧
    (check_content_elements text ctx).1.missing_elements =
      some (content_missing text) ∧
    ((check_content_elements text ctx).1.result = "pass" ↔
      content_missing text = []) := by
  have h := check_content_elements_core text ctx
  refine ⟨h.2.1, h.1, ?_⟩
  rw [h.2.2.1]
  by_cases hc : capability_count text < 4 <;>
  cases hm : mention_present text <;>
  cases ha : has_call_to_action text <;>
  cases hp : has_practical_application text <;>
  cases he : has_enthusiasm text <;>
  simp [content_missing, hm, ha, hp, he, hc, Nat.le_of_not_lt]

/-- C3: the style check returns result fail iff the text contains a
character of the fixed emoji set, contains the hash character, or contains
an informal token case-insensitively; the issues list is exactly the
violated rule names (one entry per violated rule, as spelled out by
style_issues_list), and result pass holds iff that list is empty. -/
theorem claim_style_check (text : Text) (ctx : ToolContext) :
    ((check_style_elements text ctx).1.result = "fail" ↔
      (has_emoji text = true ∨ has_hashtag text = true ∨
       has_informal_language text = true)) ∧
    (check_style_elements text ctx).1.issues = some (style_issues_list text) ∧
    ((check_style_elements text ctx).1.result = "pass" ↔
      style_issues_list text = []) := by
  have h := check_style_elements_core text ctx
  refine ⟨h.2.1, h.1, ?_⟩
  rw [h.2.2.1]
  cases he : has_emoji text <;>
  cases hh : has_hashtag text <;>
  cases hi : has_informal_language text <;>
  simp [style_issues_list, he, hh, hi]

/-- C4: the Reviewer evaluates length, then content, then style, stopping at
the first failure and surfacing only that result: for a text failing both
the length and the content check, only the length validator runs and the
surfaced result is the length failure. -/
theorem claim_reviewer_order (text : Text) (ctx : ToolContext)
    (hlen : (count_characters text ctx).1.result = "fail")
    (_hcon : (check_content_elements text ctx).1.result = "fail") :
    (reviewer_pass text ctx).1 = [CheckName.length] ∧
    (reviewer_pass text ctx).2.1 = (count_characters text ctx).1 := by
  simp [reviewer_pass, hlen]

/-- C4 witness: the empty text fails both the length and the content check,
and the reviewer surfaces exactly the length failure. -/
theorem claim_reviewer_order_witness :
    (count_characters [] { state := [], escalate := false }).1.result = "fail" ∧
    (check_content_elements [] { state := [], escalate := false }).1.result = "fail" ∧
    (reviewer_pass [] { state := [], escalate := false }).1 = [CheckName.length] ∧
    (reviewer_pass [] { state := [], escalate := false }).2.1 =
      (count_characters [] { state := [], escalate := false }).1 := by
  have h := claim_reviewer_order [] { state := [], escalate := false }
    (by decide) (by decide)
  exact ⟨by decide, by decide, h.1, h.2⟩

/-- C5 counterexample: the claim that validators leave the shared session
state unchanged is false — count_characters on the empty text writes the
review_status key into an initially empty state. -/
theorem claim_validators_no_mutation_cex :
    ¬ ((count_characters [] { state := [], escalate := false }).2 =
       { state := [], escalate := false }) := by
  decide

/-- C5 (amended): each validator mutates only the review_status key of the
shared session state; every other state key and the escalate flag keep
their previous value, and the check outcome is returned as a value. -/
theorem claim_validators_mutate_only_review_status (text : Text)
    (ctx : ToolContext) (k : String) (hk : k ≠ "review_status") :
    stateGet (count_characters text ctx).2.state k = stateGet ctx.state k ∧
    (count_characters text ctx).2.escalate = ctx.escalate ∧
    stateGet (check_content_elements text ctx).2.state k = stateGet ctx.state k ∧
    (check_content_elements text ctx).2.escalate = ctx.escalate ∧
    stateGet (check_style_elements text ctx).2.state k = stateGet ctx.state k ∧
    (check_style_elements text ctx).2.escalate = ctx.escalate := by
  have hc := (count_characters_core text ctx).2.2.2.2.2
  have hcon := (check_content_elements_core text ctx).2.2.2
  have hsty := (check_style_elements_core text ctx).2.2.2
  refine ⟨?_, ?_, ?_, ?_, ?_, ?_⟩
  · rw [hc]
    exact stateGet_stateSet_other _ _ _ _ hk
  · rw [hc]
  · rw [hcon]
    split_ifs
    · exact stateGet_stateSet_other _ _ _ _ hk
    · rfl
  · rw [hcon]
    split_ifs <;> rfl
  · rw [hsty]
    split_ifs
    · exact stateGet_stateSet_other _ _ _ _ hk
    · rfl
  · rw [hsty]
    split_ifs <;> rfl

/-- C5 witness: on the empty text and a one-binding state, every state key
other than review_status (here the topic key) and the escalate flag survive
all three validators unchanged. -/
theorem claim_validators_mutate_only_review_status_witness :
    ("topic" : String) ≠ "review_status" ∧
    (stateGet (count_characters []
        { state := [("topic", "adk")], escalate := false }).2.state "topic" =
      stateGet [("topic", "adk")] "topic" ∧
    (count_characters []
        { state := [("topic", "adk")], escalate := false }).2.escalate = false ∧
    stateGet (check_content_elements []
        { state := [("topic", "adk")], escalate := false }).2.state "topic" =
      stateGet [("topic", "adk")] "topic" ∧
    (check_content_elements []
        { state := [("topic", "adk")], escalate := false }).2.escalate = false ∧
    stateGet (check_style_elements []
        { state := [("topic", "adk")], escalate := false }).2.state "topic" =
      stateGet [("topic", "adk")] "topic" ∧
    (check_style_elements []
        { state := [("topic", "adk")], escalate := false }).2.escalate = false) :=
  ⟨by decide,
   claim_validators_mutate_only_review_status []
     { state := [("topic", "adk")], escalate := false } "topic" (by decide)⟩

/-- C6: exit_loop sets the escalate flag on the context to true and returns
the empty dictionary, touching nothing else; and the (spec-modelled)
Refinement Loop accepts exactly when that signal is raised at some
iteration within the iteration cap. -/
theorem claim_exit_loop_signal (ctx : ToolContext) (signal : Nat → Bool)
    (cap : Nat) :
    exit_loop ctx = ([], { ctx with escalate := true }) ∧
    ((run_loop signal cap).isSome = true ↔ ∃ i, i < cap ∧ signal i = true) := by
  refine ⟨rfl, ?_⟩
  rw [run_loop, run_loop_from_isSome]
  simp

/-- A returned dictionary is well formed when its result tag is pass or
fail and its message is nonempty. -/
def wellFormed (r : CheckResult) : Prop :=
  (r.result = "pass" ∨ r.result = "fail") ∧ r.message ≠ ""

theorem length_append_pos_left (s t : String) (h : 0 < s.length) :
    0 < (s ++ t).length := by
  rw [String.length_append]
  omega

/-- C7: every validator is total and returns a well-formed result value on
every input string; the empty string deterministically fails the length
check with chars_needed = 1000. -/
theorem claim_validators_total (text : Text) (ctx : ToolContext) :
    wellFormed (count_characters text ctx).1 ∧
    wellFormed (check_content_elements text ctx).1 ∧
    wellFormed (check_style_elements text ctx).1 ∧
    (count_characters [] ctx).1.result = "fail" ∧
    (count_characters [] ctx).1.chars_needed = some 1000 := by
  refine ⟨?_, ?_, ?_, ?_, ?_⟩
  · rcases Nat.lt_or_ge text.length 1000 with h1 | h1
    · rw [count_characters_short text ctx h1]
      exact ⟨Or.inr rfl,
        append_ne_empty _ _ (length_append_pos_left _ _
          (length_append_pos_left _ _ (length_append_pos_left _ _ (by decide))))⟩
    · rcases Nat.lt_or_ge 1500 text.length with h2 | h2
      · rw [count_characters_long text ctx h2]
        exact ⟨Or.inr rfl,
          append_ne_empty _ _ (length_append_pos_left _ _
            (length_append_pos_left _ _ (length_append_pos_left _ _ (by decide))))⟩
      · rw [count_characters_good text ctx h1 h2]
        exact ⟨Or.inl rfl,
          append_ne_empty _ _ (length_append_pos_left _ _ (by decide))⟩
  · unfold wellFormed
    simp only [check_content_elements]
    split_ifs <;> simp
  · unfold wellFormed
    simp only [check_style_elements]
    split_ifs <;> simp
  · rw [count_characters_short [] ctx (by decide)]
  · rw [count_characters_short [] ctx (by decide)]
    rfl

/-- C8: each validator is deterministic and idempotent in its returned
value: the returned dictionary depends only on the text (not on the
context), so any two runs on the same text — including a second run on the
state the first run produced — return identical values. -/
theorem claim_validators_idempotent (text : Text) (ctx ctx' : ToolContext) :
    (count_characters text ctx).1 = (count_characters text ctx').1 ∧
    (check_content_elements text ctx).1 = (check_content_elements text ctx').1 ∧
    (check_style_elements text ctx).1 = (check_style_elements text ctx').1 ∧
    (count_characters text (count_characters text ctx).2).1 =
      (count_characters text ctx).1 ∧
    (check_content_elements text (check_content_elements text ctx).2).1 =
      (check_content_elements text ctx).1 ∧
    (check_style_elements text (check_style_elements text ctx).2).1 =
      (check_style_elements text ctx).1 :=
  ⟨count_characters_fst_ctx text ctx ctx',
   check_content_elements_fst_ctx text ctx ctx',
   check_style_elements_fst_ctx text ctx ctx',
   count_characters_fst_ctx text _ ctx,
   check_content_elements_fst_ctx text _ ctx,
   check_style_elements_fst_ctx text _ ctx⟩

/-- C9: the mention requirement is case-sensitive: any text containing the
differently-cased token but not the exact lowercase token fails the content
check, with the mention requirement listed among the missing elements. -/
theorem claim_mention_case_sensitive (text : Text) (ctx : ToolContext)
    (_h1 : containsSub "@AIwithBrandon".toList text = true)
    (h2 : containsSub "@aiwithbrandon".toList text = false) :
    (check_content_elements text ctx).1.result = "fail" ∧
    "Mentions @aiwithbrandon" ∈
      (check_content_elements text ctx).1.missing_elements.getD [] := by
  have hm : mention_present text = false := by
    rwa [mention_present, mention_token]
  have h := check_content_elements_core text ctx
  constructor
  · exact h.2.1.mpr (Or.inl hm)
  · rw [h.1]
    simp [content_missing, hm]

/-- C9 witness: the text consisting of the token @AIwithBrandon alone
contains no exact lowercase token and fails the content check with the
mention requirement listed. -/
theorem claim_mention_case_sensitive_witness :
    containsSub "@AIwithBrandon".toList "@AIwithBrandon".toList = true ∧
    containsSub "@aiwithbrandon".toList "@AIwithBrandon".toList = false ∧
    (check_content_elements "@AIwithBrandon".toList
        { state := [], escalate := false }).1.result = "fail" ∧
    "Mentions @aiwithbrandon" ∈
      (check_content_elements "@AIwithBrandon".toList
        { state := [], escalate := false }).1.missing_elements.getD [] := by
  have h := claim_mention_case_sensitive "@AIwithBrandon".toList
    { state := [], escalate := false } (by decide) (by decide)
  exact ⟨by decide, by decide, h.1, h.2⟩

/-- C10: review_status is written asymmetrically: count_characters writes
its own result tag on every call; the content and style checks write fail
exactly when they fail and return the context untouched when they pass, so
a prior review_status value persists through a passing content or style
check. -/
theorem claim_review_status_asymmetry (text : Text) (ctx : ToolContext) :
    (count_characters text ctx).2.state =
      stateSet ctx.state "review_status" (count_characters text ctx).1.result ∧
    stateGet (count_characters text ctx).2.state "review_status" =
      some (count_characters text ctx).1.result ∧
    ((check_content_elements text ctx).2 =
      if (check_content_elements text ctx).1.result = "fail"
        then { ctx with state := stateSet ctx.state "review_status" "fail" }
        else ctx) ∧
    ((check_style_elements text ctx).2 =
      if (check_style_elements text ctx).1.result = "fail"
        then { ctx with state := stateSet ctx.state "review_status" "fail" }
        else ctx) := by
  have hc := (count_characters_core text ctx).2.2.2.2.2
  refine ⟨by rw [hc], ?_, (check_content_elements_core text ctx).2.2.2,
    (check_style_elements_core text ctx).2.2.2⟩
  rw [hc]
  exact stateGet_stateSet_same _ _ _

end LinkedInAgent
